import Mathlib

/-!
# Verification development for ROVER_DASHBOARD

Shallow embedding of the core of the RTK Rover Dashboard repository:

* backend position state store and ingest endpoint (`backend/server.js`,
  `POST /api/position`),
* survey-mark registry with its CRUD endpoints (`/api/marks` family),
* WebSocket broadcast hub (`broadcast`, `wss.on('connection')`),
* frontend geometry engine (`frontend/config.js`: `localToWorld`,
  `getSuctionTipPosition`, `generateTailingsZoneGeoJSON`),
* frontend trail recorder (`frontend/app.js`: `updateDashboard` position
  block, `recordTrailPoint`, `clearTrails`, `haversineDistance`).

JavaScript numbers are modelled as `ℚ` in the purely arithmetic backend
paths and as `ℝ` where trigonometry occurs (geometry, haversine).  Absent
(`undefined`/`null`) fields are modelled as `Option`.  I/O side effects
(DOM updates, `localStorage`, disk persistence, logging, map rendering)
carry no state relevant to the claims and are omitted; every state change
and every emitted message is modelled.
-/

namespace Rover

/-- The JS value stored in `roverState.fixed_rate`: either the string
produced by `toFixed(1)` or the number `0` (the server stores the number
`0`, not a string, when `total ≤ 0`). -/
inductive RateVal where
  | str (s : String)
  | num (q : ℚ)
deriving DecidableEq

/-- Model of JavaScript `x.toFixed(1)` on a (real-exact) rational:
round `10·x` to the nearest integer and print one decimal digit. -/
def toFixed1 (q : ℚ) : String :=
  let n : ℤ := round (q * 10)
  let sign := if n < 0 then "-" else ""
  sign ++ toString (n.natAbs / 10) ++ "." ++ toString (n.natAbs % 10)

/-- Model of `String(v).padStart(2, '0')` for a possibly-absent JS number:
`String(undefined)` is `"undefined"` (length ≥ 2, left unpadded). -/
def pad2 (v : Option ℤ) : String :=
  let s := match v with
    | some n => toString n
    | none => "undefined"
  if s.length < 2 then "0" ++ s else s

/-- The request body accepted by `POST /api/position` (all fields may be
absent). -/
structure PosReq where
  latitude : Option ℚ
  longitude : Option ℚ
  altitude : Option ℚ
  h_acc : Option ℚ
  v_acc : Option ℚ
  fix_type : Option ℤ
  carr_soln : Option ℤ
  num_sv : Option ℤ
  rtcm_bytes : Option ℤ
  fixed_count : Option ℚ
  float_count : Option ℚ
  battery_pct : Option ℚ
  firmware_version : Option String
  hour : Option ℤ
  min : Option ℤ
  sec : Option ℤ
deriving DecidableEq

/-- The single mutable `roverState` record of `backend/server.js`. -/
structure RoverState where
  latitude : Option ℚ
  longitude : Option ℚ
  altitude : Option ℚ
  h_acc : Option ℚ
  v_acc : Option ℚ
  fix_type : Option ℤ
  carr_soln : Option ℤ
  num_sv : Option ℤ
  rtcm_bytes : Option ℤ
  fixed_count : Option ℚ
  float_count : Option ℚ
  fixed_rate : Option RateVal
  battery_pct : Option ℚ
  firmware_version : Option String
  timestamp : Option String
  last_update : Option String
deriving DecidableEq

/-- Initial `roverState`: every field `null`. -/
def initialRoverState : RoverState :=
  { latitude := none, longitude := none, altitude := none, h_acc := none
    v_acc := none, fix_type := none, carr_soln := none, num_sv := none
    rtcm_bytes := none, fixed_count := none, float_count := none
    fixed_rate := none, battery_pct := none, firmware_version := none
    timestamp := none, last_update := none }

/-- `POST /api/position` handler.  `now` stands for
`new Date().toISOString()`.  Always responds `{success: true}` (the `Bool`
component) and wholly rebuilds `roverState` from the request body.
`(fixed_count || 0) + (float_count || 0)` coincides with `getD 0` because
the JS falsy case of a present number is `0`, which `|| 0` also maps
to `0`.  When `fixed_count` is absent but `total > 0`, the JS expression
`100.0 * undefined / total` is `NaN` and `NaN.toFixed(1)` renders
`"NaN"`. -/
def positionIngest (req : PosReq) (now : String) (_prev : RoverState) :
    Bool × RoverState :=
  let total : ℚ := req.fixed_count.getD 0 + req.float_count.getD 0
  let fixed_rate : RateVal :=
    if 0 < total then
      match req.fixed_count with
      | some fc => RateVal.str (toFixed1 (100 * fc / total))
      | none => RateVal.str ("NaN")
    else RateVal.num 0
  (true,
    { latitude := req.latitude, longitude := req.longitude
      altitude := req.altitude, h_acc := req.h_acc, v_acc := req.v_acc
      fix_type := req.fix_type, carr_soln := req.carr_soln
      num_sv := req.num_sv, rtcm_bytes := req.rtcm_bytes
      fixed_count := req.fixed_count, float_count := req.float_count
      fixed_rate := some fixed_rate
      battery_pct := req.battery_pct
      firmware_version := req.firmware_version
      timestamp := some (pad2 req.hour ++ ":" ++ pad2 req.min ++ ":" ++
        pad2 req.sec ++ " UTC")
      last_update := some now })

/-- A stored survey mark. -/
structure Mark where
  id : ℕ
  label : String
  latitude : ℚ
  longitude : ℚ
  h_acc : Option ℚ
  timestamp : String
  created_at : ℤ
deriving DecidableEq

/-- Request body for `POST /api/marks` (fields may be absent). -/
structure MarkReq where
  latitude : Option ℚ
  longitude : Option ℚ
  h_acc : Option ℚ
  label : Option String
deriving DecidableEq

/-- Error taxonomy surfaced by the marks endpoints. -/
inductive ErrKind where
  | validationError
  | notFound
deriving DecidableEq

/-- The mark registry state: the `marks` array and `markCounter`. -/
structure RegState where
  marks : List Mark
  markCounter : ℕ
deriving DecidableEq

/-- Registry state at startup with no persisted file. -/
def initReg : RegState := { marks := [], markCounter := 0 }

/-- `POST /api/marks`.  `now` stands for `new Date().toISOString()` and
`created_at` for `Date.now()`.  A missing latitude or longitude yields a
400 before any state is touched.  `label || default` treats the empty
string as falsy; `h_acc || null` maps a present `0` to `null`. -/
def createMark (req : MarkReq) (now : String) (created_at : ℤ)
    (s : RegState) : Except ErrKind Mark × RegState :=
  match req.latitude, req.longitude with
  | some lat, some lon =>
    let newCounter := s.markCounter + 1
    let lbl := match req.label with
      | some l => if l = "" then "RM_" ++ toString newCounter else l
      | none => "RM_" ++ toString newCounter
    let hacc := match req.h_acc with
      | some v => if v = 0 then none else some v
      | none => none
    let mark : Mark :=
      { id := newCounter, label := lbl, latitude := lat, longitude := lon
        h_acc := hacc, timestamp := now, created_at := created_at }
    (Except.ok mark, { marks := s.marks ++ [mark], markCounter := newCounter })
  | _, _ => (Except.error ErrKind.validationError, s)

/-- `DELETE /api/marks/:id`: `findIndex` then `splice(index, 1)`. -/
def deleteMark (id : ℕ) (s : RegState) : Except ErrKind Unit × RegState :=
  match s.marks.findIdx? (fun m => m.id = id) with
  | none => (Except.error ErrKind.notFound, s)
  | some i => (Except.ok (), { s with marks := s.marks.eraseIdx i })

/-- In-place mutation of the first list element with the given id, as
`marks.find(m => m.id === id)` followed by a field assignment behaves. -/
def updateFirst (id : ℕ) (f : Mark → Mark) :
    List Mark → Option (Mark × List Mark)
  | [] => none
  | m :: rest =>
    if m.id = id then
      let m' := f m
      some (m', m' :: rest)
    else
      match updateFirst id f rest with
      | none => none
      | some (r, rest') => some (r, m :: rest')

/-- The label assignment of `PATCH /api/marks/:id`: executed only when
`req.body.label` is truthy (present and non-empty). -/
def applyLabel (label : Option String) (m : Mark) : Mark :=
  match label with
  | some l => if l = "" then m else { m with label := l }
  | none => m

/-- `PATCH /api/marks/:id`: find the mark, rewrite its label when
`req.body.label` is truthy, answer with the (possibly unchanged)
mark. -/
def updateMark (id : ℕ) (label : Option String) (s : RegState) :
    Except ErrKind Mark × RegState :=
  match updateFirst id (applyLabel label) s.marks with
  | none => (Except.error ErrKind.notFound, s)
  | some (m', marks') => (Except.ok m', { s with marks := marks' })

/-- `DELETE /api/marks`: clear the collection and reset the counter,
answering with the number of deleted marks. -/
def clearAll (s : RegState) : ℕ × RegState :=
  (s.marks.length, { marks := [], markCounter := 0 })

/-- One registry operation, for reasoning about operation sequences. -/
inductive RegOp where
  | create (req : MarkReq) (now : String) (created_at : ℤ)
  | delete (id : ℕ)
  | update (id : ℕ) (label : Option String)
  | clear
deriving DecidableEq

/-- Apply one operation; also report the ids issued by it (the id of a
successfully created mark). -/
def applyOp (s : RegState) : RegOp → RegState × List ℕ
  | RegOp.create req now ca =>
    match createMark req now ca s with
    | (Except.ok m, s') => (s', [m.id])
    | (Except.error _, s') => (s', [])
  | RegOp.delete id => ((deleteMark id s).2, [])
  | RegOp.update id lbl => ((updateMark id lbl s).2, [])
  | RegOp.clear => ((clearAll s).2, [])

/-- Run a sequence of registry operations, accumulating issued ids in
order. -/
def runOps (s : RegState) : List RegOp → RegState × List ℕ
  | [] => (s, [])
  | op :: rest =>
    let p := applyOp s op
    let q := runOps p.1 rest
    (q.1, p.2 ++ q.2)

/-- One WebSocket message emitted by the server. -/
inductive WsMsg where
  | position (data : RoverState)
  | marks (data : List Mark)
  | mark (action : String) (data : Option Mark)
deriving DecidableEq

/-- A tracked WebSocket connection: its identity and `readyState`
(1 = OPEN). -/
structure Conn where
  ident : ℕ
  readyState : ℕ
deriving DecidableEq

/-- The `broadcast` function: iterate the client set and send the
(stringified) message to every connection whose `readyState` is OPEN; a
non-open connection is silently skipped. The result is the list of
performed sends (receiver identity, message). -/
def broadcast (clients : List Conn) (msg : WsMsg) : List (ℕ × WsMsg) :=
  clients.filterMap
    (fun c => if c.readyState = 1 then some (c.ident, msg) else none)

/-- The `wss.on('connection')` handler of the marks-enabled server: push
the current position if `roverState.latitude !== null`, then push the
mark list if it is non-empty.  Result: the messages sent to the new
connection, in order. -/
def onConnection (rs : RoverState) (marks : List Mark) : List WsMsg :=
  (if rs.latitude.isSome then [WsMsg.position rs] else []) ++
  (if 0 < marks.length then [WsMsg.marks marks] else [])

/-! ## Geometry engine (`frontend/config.js`)

Real-valued model; `DREDGE_CONFIG` numeric constants are inlined as named
definitions. -/

/-- `DREDGE_CONFIG.hull.width` (feet). -/
noncomputable def hullWidth : ℝ := 32

/-- `DREDGE_CONFIG.hull.length` (feet). -/
noncomputable def hullLength : ℝ := 40

/-- `DREDGE_CONFIG.antenna.x` (feet from port edge). -/
noncomputable def antennaLocalX : ℝ := 22

/-- `DREDGE_CONFIG.antenna.y` (feet from stern). -/
noncomputable def antennaLocalY : ℝ := 30

/-- `DREDGE_CONFIG.nozzle.offsetFromHull`. -/
noncomputable def nozzleOffsetFromHull : ℝ := 1.5

/-- `DREDGE_CONFIG.nozzle.pivotY`. -/
noncomputable def nozzlePivotY : ℝ := 10

/-- `DREDGE_CONFIG.nozzle.length`. -/
noncomputable def nozzleLength : ℝ := 50

/-- `DREDGE_CONFIG.nozzle.diameter` (16 inches in feet). -/
noncomputable def nozzleDiameter : ℝ := 16 / 12

/-- `DREDGE_CONFIG.tailings.width`. -/
noncomputable def tailingsWidth : ℝ := 20

/-- `DREDGE_CONFIG.tailings.length`. -/
noncomputable def tailingsLength : ℝ := 6

/-- `DREDGE_CONFIG.tailings.offsetY`. -/
noncomputable def tailingsOffsetY : ℝ := -6

/-- `feetToMeters`. -/
noncomputable def feetToMeters (feet : ℝ) : ℝ := feet * 0.3048

/-- `localToWorld(localX, localY, antennaLat, antennaLon, heading)`:
rigid-body transform from vehicle-local feet to world `[lon, lat]`
(returned here as a pair, first component longitude). -/
noncomputable def localToWorld
    (localX localY antennaLat antennaLon heading : ℝ) : ℝ × ℝ :=
  let offsetX := localX - antennaLocalX
  let offsetY := localY - antennaLocalY
  let offsetXm := feetToMeters offsetX
  let offsetYm := feetToMeters offsetY
  let headingRad := heading * Real.pi / 180
  let rotatedX := offsetXm * Real.cos headingRad +
    offsetYm * Real.sin headingRad
  let rotatedY := -offsetXm * Real.sin headingRad +
    offsetYm * Real.cos headingRad
  let earthRadius : ℝ := 6371000
  let dLat := rotatedY / earthRadius * (180 / Real.pi)
  let dLon := rotatedX / earthRadius * (180 / Real.pi) /
    Real.cos (antennaLat * Real.pi / 180)
  (antennaLon + dLon, antennaLat + dLat)

/-- `getSuctionTipPosition`. -/
noncomputable def getSuctionTipPosition
    (antennaLat antennaLon heading : ℝ) : ℝ × ℝ :=
  let tipX := hullWidth + nozzleOffsetFromHull + nozzleDiameter / 2
  let tipY := nozzlePivotY + nozzleLength
  localToWorld tipX tipY antennaLat antennaLon heading

/-- The polygon ring produced by `generateTailingsZoneGeoJSON` (the
GeoJSON `Feature` wrapper carries no further state and is dropped): the
four corners transformed to world coordinates, closed by repeating the
first vertex. -/
noncomputable def generateTailingsZoneRing
    (antennaLat antennaLon heading : ℝ) : List (ℝ × ℝ) :=
  let hullCenterX := hullWidth / 2
  let halfWidth := tailingsWidth / 2
  let corners : List (ℝ × ℝ) :=
    [(hullCenterX - halfWidth, tailingsOffsetY),
     (hullCenterX + halfWidth, tailingsOffsetY),
     (hullCenterX + halfWidth, tailingsOffsetY + tailingsLength),
     (hullCenterX - halfWidth, tailingsOffsetY + tailingsLength)]
  let worldCoords :=
    corners.map (fun c => localToWorld c.1 c.2 antennaLat antennaLon heading)
  worldCoords ++ worldCoords.take 1

/-! ## Trail recorder (`frontend/app.js`) -/

/-- JS `Math.atan2(y, x)`. -/
noncomputable def atan2 (y x : ℝ) : ℝ :=
  if 0 < x then Real.arctan (y / x)
  else if x < 0 then
    (if 0 ≤ y then Real.arctan (y / x) + Real.pi
     else Real.arctan (y / x) - Real.pi)
  else if 0 < y then Real.pi / 2
  else if y < 0 then -(Real.pi / 2)
  else 0

/-- `RoverDashboard.haversineDistance(lat1, lon1, lat2, lon2)` in
meters. -/
noncomputable def haversineDistance (lat1 lon1 lat2 lon2 : ℝ) : ℝ :=
  let R : ℝ := 6371000
  let dLat := (lat2 - lat1) * Real.pi / 180
  let dLon := (lon2 - lon1) * Real.pi / 180
  let a := Real.sin (dLat / 2) * Real.sin (dLat / 2) +
    Real.cos (lat1 * Real.pi / 180) * Real.cos (lat2 * Real.pi / 180) *
    Real.sin (dLon / 2) * Real.sin (dLon / 2)
  R * 2 * atan2 (Real.sqrt a) (Real.sqrt (1 - a))

/-- `this.minTrailDistance` (meters). -/
noncomputable def minTrailDistance : ℝ := 0.5

/-- `this.locationMode`. -/
inductive LocationMode where
  | live
  | nome
deriving DecidableEq

/-- The three trail sequences (`this.trails`).  A tailings entry is the
polygon ring of `generateTailingsZoneGeoJSON`. -/
structure Trails where
  piloting : List (ℝ × ℝ)
  suction : List (ℝ × ℝ)
  tailings : List (List (ℝ × ℝ))

/-- The dashboard state touched by the position pipeline.  A position is
a `(latitude, longitude)` pair.  DOM/display fields are presentation
only and omitted. -/
structure DashState where
  currentPosition : Option (ℝ × ℝ)
  heading : ℝ
  locationMode : LocationMode
  trails : Trails

/-- Constructor state: no position yet, heading 0, live mode, empty
trails. -/
noncomputable def initDash : DashState :=
  { currentPosition := none, heading := 0, locationMode := LocationMode.live
    trails := { piloting := [], suction := [], tailings := [] } }

/-- The three `push` calls at the end of `recordTrailPoint`: piloting
gets `[longitude, latitude]`, suction the nozzle tip, tailings the zone
ring — always together. -/
noncomputable def pushTrails (st : DashState) (lat lon : ℝ) : DashState :=
  { st with trails :=
    { piloting := st.trails.piloting ++ [(lon, lat)]
      suction := st.trails.suction ++
        [getSuctionTipPosition lat lon st.heading]
      tailings := st.trails.tailings ++
        [generateTailingsZoneRing lat lon st.heading] } }

open Classical in
/-- `RoverDashboard.recordTrailPoint(prevPos)`: bail out if there is no
current position; if a previous position was supplied and the haversine
distance to it is below `minTrailDistance`, record nothing; otherwise
append to all three trails. -/
noncomputable def recordTrailPoint (st : DashState)
    (prevPos : Option (ℝ × ℝ)) : DashState :=
  match st.currentPosition with
  | none => st
  | some cur =>
    match prevPos with
    | some pp =>
      if haversineDistance pp.1 pp.2 cur.1 cur.2 < minTrailDistance then st
      else pushTrails st cur.1 cur.2
    | none => pushTrails st cur.1 cur.2

/-- The fields of a `position` message that drive the state-relevant part
of `updateDashboard`. -/
structure DashFix where
  latitude : Option ℝ
  longitude : Option ℝ
  carr_soln : Option ℤ

/-- The position block of `RoverDashboard.updateDashboard(data)`: when
both coordinates are present, remember the old `currentPosition` as
`prevPos`, overwrite `currentPosition` (live mode only), and invoke
`recordTrailPoint` when the fix is RTK-fixed and the live source is
active.  DOM updates and map panning are presentation only and
omitted. -/
noncomputable def updateDashboard (st : DashState) (data : DashFix) :
    DashState :=
  match data.latitude, data.longitude with
  | some lat, some lon =>
    let prevPos := st.currentPosition
    let st1 :=
      if st.locationMode = LocationMode.live then
        { st with currentPosition := some (lat, lon) }
      else st
    if data.carr_soln = some 2 ∧ st.locationMode = LocationMode.live then
      recordTrailPoint st1 prevPos
    else st1
  | _, _ => st

/-- `RoverDashboard.clearTrails()`: empty all three sequences (the
`localStorage` removal is external I/O). -/
noncomputable def clearTrails (st : DashState) : DashState :=
  { st with trails := { piloting := [], suction := [], tailings := [] } }

/-- Feed a sequence of position messages to the dashboard. -/
noncomputable def runUpdates (st : DashState) (l : List DashFix) :
    DashState :=
  l.foldl updateDashboard st

/-! ## Helper lemmas: mark registry -/

lemma updateFirst_eq_none (id : ℕ) (f : Mark → Mark) (l : List Mark)
    (h : ∀ m ∈ l, m.id ≠ id) : updateFirst id f l = none := by
  induction l with
  | nil => rfl
  | cons a t ih =>
    have ha : a.id ≠ id := h a (List.mem_cons_self a t)
    have ht : ∀ m ∈ t, m.id ≠ id := fun m hm => h m (List.mem_cons_of_mem a hm)
    simp only [updateFirst, if_neg ha, ih ht]

lemma deleteMark_markCounter (id : ℕ) (s : RegState) :
    ((deleteMark id s).2).markCounter = s.markCounter := by
  unfold deleteMark
  cases s.marks.findIdx? (fun m => m.id = id) <;> rfl

lemma updateMark_markCounter (id : ℕ) (lbl : Option String) (s : RegState) :
    ((updateMark id lbl s).2).markCounter = s.markCounter := by
  unfold updateMark
  cases updateFirst id (applyLabel lbl) s.marks with
  | none => rfl
  | some p => cases p; rfl

/-- Successful creation: the returned mark gets id `markCounter + 1`, is
appended, and the counter advances by one. -/
lemma createMark_ok (req : MarkReq) (now : String) (ca : ℤ) (s : RegState)
    (lat lon : ℚ) (hlat : req.latitude = some lat)
    (hlon : req.longitude = some lon) :
    ∃ m : Mark, createMark req now ca s =
      (Except.ok m,
        { marks := s.marks ++ [m], markCounter := s.markCounter + 1 }) ∧
      m.id = s.markCounter + 1 := by
  unfold createMark
  rw [hlat, hlon]
  exact ⟨_, rfl, rfl⟩

/-- Issued ids along a `ClearAll`-free operation sequence are pairwise
increasing, all exceed the starting counter, and the counter never
decreases. -/
lemma runOps_issued (ops : List RegOp) (hnc : RegOp.clear ∉ ops) :
    ∀ s : RegState,
      List.Pairwise (· < ·) (runOps s ops).2 ∧
      (∀ i ∈ (runOps s ops).2, s.markCounter < i) ∧
      s.markCounter ≤ ((runOps s ops).1).markCounter := by
  induction ops with
  | nil => intro s; simp [runOps]
  | cons op rest ih =>
    intro s
    have hop : op ≠ RegOp.clear := fun h => hnc (h ▸ List.mem_cons_self op rest)
    have hrest : RegOp.clear ∉ rest := fun h => hnc (List.mem_cons_of_mem op h)
    cases op with
    | create req now ca =>
      cases hlat : req.latitude with
      | none =>
        have hcm : createMark req now ca s =
            (Except.error ErrKind.validationError, s) := by
          unfold createMark; rw [hlat]
        obtain ⟨h1, h2, h3⟩ := ih hrest s
        exact ⟨by simpa [runOps, applyOp, hcm] using h1,
          by simpa [runOps, applyOp, hcm] using h2,
          by simpa [runOps, applyOp, hcm] using h3⟩
      | some lat =>
        cases hlon : req.longitude with
        | none =>
          have hcm : createMark req now ca s =
              (Except.error ErrKind.validationError, s) := by
            unfold createMark; rw [hlat, hlon]
          obtain ⟨h1, h2, h3⟩ := ih hrest s
          exact ⟨by simpa [runOps, applyOp, hcm] using h1,
            by simpa [runOps, applyOp, hcm] using h2,
            by simpa [runOps, applyOp, hcm] using h3⟩
        | some lon =>
          obtain ⟨m, hcm, hmid⟩ := createMark_ok req now ca s lat lon hlat hlon
          set s2 : RegState :=
            { marks := s.marks ++ [m], markCounter := s.markCounter + 1 }
            with hs2
          obtain ⟨h1, h2, h3⟩ := ih hrest s2
          have hc2 : s2.markCounter = s.markCounter + 1 := by rw [hs2]
          rw [hc2] at h2 h3
          refine ⟨?_, ?_, ?_⟩
          · simp only [runOps, applyOp, hcm, List.singleton_append]
            refine List.Pairwise.cons (fun i hi => ?_) h1
            rw [hmid]
            exact h2 i hi
          · simp only [runOps, applyOp, hcm, List.singleton_append,
              List.mem_cons]
            rintro i (rfl | hi)
            · omega
            · have hx := h2 i hi
              omega
          · simp only [runOps, applyOp, hcm]
            omega
    | delete id =>
      obtain ⟨h1, h2, h3⟩ := ih hrest (deleteMark id s).2
      rw [deleteMark_markCounter] at h2 h3
      exact ⟨by simpa [runOps, applyOp] using h1,
        by simpa [runOps, applyOp] using h2,
        by simpa [runOps, applyOp] using h3⟩
    | update id lbl =>
      obtain ⟨h1, h2, h3⟩ := ih hrest (updateMark id lbl s).2
      rw [updateMark_markCounter] at h2 h3
      exact ⟨by simpa [runOps, applyOp] using h1,
        by simpa [runOps, applyOp] using h2,
        by simpa [runOps, applyOp] using h3⟩
    | clear => exact absurd rfl hop

/-! ## Helper lemmas: broadcast hub -/

lemma broadcast_cons (x : Conn) (t : List Conn) (msg : WsMsg) :
    broadcast (x :: t) msg =
      (if x.readyState = 1 then [(x.ident, msg)] else []) ++
        broadcast t msg := by
  unfold broadcast
  rw [List.filterMap_cons]
  by_cases hr : x.readyState = 1
  · rw [if_pos hr, if_pos hr]; rfl
  · rw [if_neg hr, if_neg hr]; rfl

lemma broadcast_count_notMem (clients : List Conn) (msg : WsMsg) (i : ℕ)
    (h : i ∉ clients.map Conn.ident) :
    (broadcast clients msg).count (i, msg) = 0 := by
  induction clients with
  | nil => rfl
  | cons x t ih =>
    have hx : i ≠ x.ident := by
      intro he; exact h (by simp [he])
    have ht : i ∉ t.map Conn.ident := fun he => h (by simp [he])
    rw [broadcast_cons]
    by_cases hr : x.readyState = 1
    · rw [if_pos hr]
      simp [List.count_cons, ih ht, Prod.ext_iff, hx]
    · rw [if_neg hr]
      simpa using ih ht

lemma broadcast_length (clients : List Conn) (msg : WsMsg) :
    (broadcast clients msg).length =
      (clients.filter (fun x => x.readyState = 1)).length := by
  induction clients with
  | nil => rfl
  | cons x t ih =>
    rw [broadcast_cons, List.filter_cons]
    by_cases hr : x.readyState = 1
    · rw [if_pos hr, if_pos (by exact decide_eq_true hr)]
      simpa using ih
    · rw [if_neg hr, if_neg (by simpa using hr)]
      simpa using ih

/-! ## Concrete inputs used by witnesses and counterexamples -/

/-- A fixed ISO timestamp stand-in. -/
def wNow : String := "2026-01-01T00:00:00.000Z"

/-- A structurally valid mark-creation request. -/
def reqA : MarkReq :=
  { latitude := some 1, longitude := some 2, h_acc := none, label := none }

/-- Create three marks, delete the second, create a fourth. -/
def demoOps : List RegOp :=
  [RegOp.create reqA wNow 0, RegOp.create reqA wNow 1,
   RegOp.create reqA wNow 2, RegOp.delete 2, RegOp.create reqA wNow 3]

/-- The end-to-end scenario fix of the specification: `lat 45`, `lon
-122`, RTK fixed, `fixed_count 10`, `float_count 0`, time `01:00:00`. -/
def c4fix : PosReq :=
  { latitude := some 45, longitude := some (-122), altitude := none
    h_acc := none, v_acc := none, fix_type := none, carr_soln := some 2
    num_sv := none, rtcm_bytes := none, fixed_count := some 10
    float_count := some 0, battery_pct := none, firmware_version := none
    hour := some 1, min := some 0, sec := some 0 }

/-- A mark-creation request carrying `h_acc` exactly `0`. -/
def reqZeroAcc : MarkReq :=
  { latitude := some 45, longitude := some (-122), h_acc := some 0
    label := none }

/-- A request missing its longitude. -/
def reqNoLon : MarkReq :=
  { latitude := some 45, longitude := none, h_acc := none, label := none }

/-- A one-mark registry whose only id is `1`. -/
def regOne : RegState :=
  { marks := [{ id := 1, label := "RM_1", latitude := 1, longitude := 2
                h_acc := none, timestamp := wNow, created_at := 0 }]
    markCounter := 1 }

/-- Three tracked connections; number `2` is not open. -/
def demoClients : List Conn := [⟨1, 1⟩, ⟨2, 0⟩, ⟨3, 1⟩]

/-- The server state right after ingesting the scenario fix from a fresh
start. -/
def c8state : RoverState := (positionIngest c4fix wNow initialRoverState).2

/-- Evaluation of the rendering model at the scenario value. -/
lemma toFixed1_hundred : toFixed1 (100 : ℚ) = "100.0" := by
  unfold toFixed1
  rw [show round ((100 : ℚ) * 10) = 1000 by norm_num [round_eq]]
  rfl

/-! ## Claim theorems: backend -/

/-- C3: mark ids are strictly monotonic per registry lifetime — along any
`ClearAll`-free operation sequence from the initial registry, the ids
issued by successful creates are pairwise strictly increasing (never
reused, each new id exceeds every id ever issued, also across deletes);
and immediately after `ClearAll` the next successful create yields
id `1`. -/
theorem markId_monotonic :
    (∀ ops : List RegOp, RegOp.clear ∉ ops →
      List.Pairwise (· < ·) (runOps initReg ops).2) ∧
    (∀ (s : RegState) (req : MarkReq) (now : String) (ca : ℤ) (lat lon : ℚ),
      req.latitude = some lat → req.longitude = some lon →
      ∃ m : Mark, (createMark req now ca (clearAll s).2).1 = Except.ok m ∧
        m.id = 1) := by
  constructor
  · intro ops hnc
    exact (runOps_issued ops hnc initReg).1
  · intro s req now ca lat lon hlat hlon
    obtain ⟨m, hcm, hmid⟩ :=
      createMark_ok req now ca (clearAll s).2 lat lon hlat hlon
    exact ⟨m, by rw [hcm], by rw [hmid]; rfl⟩

/-- Witness for C3 at a concrete operation sequence: ids issued along
`demoOps` are strictly increasing, and a create straight after a clear
gets id 1. -/
theorem markId_monotonic_witness :
    RegOp.clear ∉ demoOps ∧
    List.Pairwise (· < ·) (runOps initReg demoOps).2 ∧
    (reqA.latitude = some 1 ∧ reqA.longitude = some 2) ∧
    (∃ m : Mark, (createMark reqA wNow 0 (clearAll regOne).2).1 =
      Except.ok m ∧ m.id = 1) :=
  ⟨by decide, markId_monotonic.1 demoOps (by decide), ⟨rfl, rfl⟩,
    markId_monotonic.2 regOne reqA wNow 0 1 2 rfl rfl⟩

/-- C4: for every ingested fix with both counters present, the derived
`fixed_rate` is `toFixed(1)` of `100·fixed_count/(fixed_count+float_count)`
when the denominator is positive and the number `0` when it is zero; the
spec's end-to-end scenario fix yields `fixed_rate "100.0"` and timestamp
`"01:00:00 UTC"`. -/
theorem fixedRate_formula :
    (∀ (req : PosReq) (now : String) (prev : RoverState) (fc fl : ℚ),
      req.fixed_count = some fc → req.float_count = some fl →
      ((0 < fc + fl →
        ((positionIngest req now prev).2).fixed_rate =
          some (RateVal.str (toFixed1 (100 * fc / (fc + fl))))) ∧
       (fc + fl = 0 →
        ((positionIngest req now prev).2).fixed_rate =
          some (RateVal.num 0)))) ∧
    (∀ (now : String) (prev : RoverState),
      ((positionIngest c4fix now prev).2).fixed_rate =
        some (RateVal.str ("100.0")) ∧
      ((positionIngest c4fix now prev).2).timestamp =
        some ("01:00:00 UTC")) := by
  constructor
  · intro req now prev fc fl hfc hfl
    constructor
    · intro hpos
      simp only [positionIngest, hfc, hfl, Option.getD_some]
      rw [if_pos hpos]
    · intro h0
      simp only [positionIngest, hfc, hfl, Option.getD_some, h0]
      rw [if_neg (lt_irrefl 0)]
  · intro now prev
    constructor
    · simp only [positionIngest, c4fix, Option.getD_some]
      rw [if_pos (show (0 : ℚ) < 10 + 0 by norm_num)]
      rw [show (100 * 10 / (10 + 0) : ℚ) = 100 by norm_num]
      rw [toFixed1_hundred]
    · rfl

/-- Witness for C4 at the concrete scenario fix. -/
theorem fixedRate_formula_witness :
    c4fix.fixed_count = some 10 ∧ c4fix.float_count = some 0 ∧
    ((0 < (10 : ℚ) + 0 →
      ((positionIngest c4fix wNow initialRoverState).2).fixed_rate =
        some (RateVal.str (toFixed1 (100 * 10 / (10 + 0))))) ∧
     ((10 : ℚ) + 0 = 0 →
      ((positionIngest c4fix wNow initialRoverState).2).fixed_rate =
        some (RateVal.num 0))) :=
  ⟨rfl, rfl, fixedRate_formula.1 c4fix wNow initialRoverState 10 0 rfl rfl⟩

/-- C5: ingest is total and last-write-wins — it always succeeds, its
result is independent of the previous state (so no field of the previous
state survives), every raw field of the new state is taken from the
request (absent numeric fields stay absent, never defaulted to 0), and
`last_update` is stamped. -/
theorem ingest_total_last_write_wins (req : PosReq) (now : String)
    (prev prev' : RoverState) :
    (positionIngest req now prev).1 = true ∧
    positionIngest req now prev = positionIngest req now prev' ∧
    ((positionIngest req now prev).2).latitude = req.latitude ∧
    ((positionIngest req now prev).2).longitude = req.longitude ∧
    ((positionIngest req now prev).2).altitude = req.altitude ∧
    ((positionIngest req now prev).2).h_acc = req.h_acc ∧
    ((positionIngest req now prev).2).v_acc = req.v_acc ∧
    ((positionIngest req now prev).2).fix_type = req.fix_type ∧
    ((positionIngest req now prev).2).carr_soln = req.carr_soln ∧
    ((positionIngest req now prev).2).num_sv = req.num_sv ∧
    ((positionIngest req now prev).2).rtcm_bytes = req.rtcm_bytes ∧
    ((positionIngest req now prev).2).fixed_count = req.fixed_count ∧
    ((positionIngest req now prev).2).float_count = req.float_count ∧
    ((positionIngest req now prev).2).battery_pct = req.battery_pct ∧
    ((positionIngest req now prev).2).firmware_version =
      req.firmware_version ∧
    ((positionIngest req now prev).2).last_update = some now :=
  ⟨rfl, rfl, rfl, rfl, rfl, rfl, rfl, rfl, rfl, rfl, rfl, rfl, rfl, rfl,
   rfl, rfl⟩

/-- C6: registry errors are atomic — a create with a missing coordinate
fails with the validation error and returns the state unchanged (marks
and counter untouched); a delete or update naming an id not in the
registry fails with not-found and returns the state unchanged. -/
theorem markErrors_atomic (s : RegState) (req : MarkReq) (now : String)
    (ca : ℤ) (id : ℕ) (lbl : Option String) :
    ((req.latitude = none ∨ req.longitude = none) →
      createMark req now ca s = (Except.error ErrKind.validationError, s)) ∧
    ((∀ m ∈ s.marks, m.id ≠ id) →
      deleteMark id s = (Except.error ErrKind.notFound, s) ∧
      updateMark id lbl s = (Except.error ErrKind.notFound, s)) := by
  constructor
  · intro h
    cases hlat : req.latitude with
    | none => unfold createMark; rw [hlat]
    | some lat =>
      cases hlon : req.longitude with
      | none => unfold createMark; rw [hlat, hlon]
      | some lon =>
        rcases h with h | h
        · rw [hlat] at h; exact absurd h (by simp)
        · rw [hlon] at h; exact absurd h (by simp)
  · intro h
    constructor
    · unfold deleteMark
      rw [List.findIdx?_eq_none_iff.mpr (fun m hm => by simpa using h m hm)]
    · unfold updateMark
      rw [updateFirst_eq_none id (applyLabel lbl) s.marks h]

/-- Witness for C6 at concrete inputs: a request lacking longitude and an
absent id `99` against the one-mark registry. -/
theorem markErrors_atomic_witness :
    (reqNoLon.latitude = none ∨ reqNoLon.longitude = none) ∧
    createMark reqNoLon wNow 0 regOne =
      (Except.error ErrKind.validationError, regOne) ∧
    (∀ m ∈ regOne.marks, m.id ≠ 99) ∧
    deleteMark 99 regOne = (Except.error ErrKind.notFound, regOne) ∧
    updateMark 99 none regOne = (Except.error ErrKind.notFound, regOne) :=
  ⟨Or.inr rfl,
   (markErrors_atomic regOne reqNoLon wNow 0 99 none).1 (Or.inr rfl),
   by decide,
   ((markErrors_atomic regOne reqNoLon wNow 0 99 none).2 (by decide)).1,
   ((markErrors_atomic regOne reqNoLon wNow 0 99 none).2 (by decide)).2⟩

lemma broadcast_count_mem (msg : WsMsg) (c : Conn) :
    ∀ clients : List Conn, (clients.map Conn.ident).Nodup → c ∈ clients →
      (broadcast clients msg).count (c.ident, msg) =
        (if c.readyState = 1 then 1 else 0) := by
  intro clients
  induction clients with
  | nil => intro _ hc; exact absurd hc (List.not_mem_nil c)
  | cons x t ih =>
    intro hnd hc
    rw [List.map_cons, List.nodup_cons] at hnd
    rw [broadcast_cons]
    rcases List.mem_cons.mp hc with rfl | hct
    · by_cases hr : c.readyState = 1
      · rw [if_pos hr, if_pos hr, List.singleton_append, List.count_cons]
        simp [broadcast_count_notMem t msg c.ident hnd.1]
      · rw [if_neg hr, if_neg hr, List.nil_append]
        exact broadcast_count_notMem t msg c.ident hnd.1
    · have hx : c.ident ≠ x.ident := by
        intro he
        exact hnd.1 (he ▸ List.mem_map_of_mem Conn.ident hct)
      by_cases hr : x.readyState = 1
      · rw [if_pos hr, List.singleton_append, List.count_cons]
        simp [ih hnd.2 hct, Prod.ext_iff, hx, Ne.symm hx]
      · rw [if_neg hr, List.nil_append]
        exact ih hnd.2 hct

/-- C7: fan-out completeness — for any broadcast (the single `broadcast`
call performed by ingest or a mark mutation), each tracked connection in
the open-ready state receives exactly one copy of the event, a
connection that is not open-ready receives none (the send is a silent
no-op), and the total number of sends equals the number of open
connections. -/
theorem broadcast_fanout_exact (clients : List Conn) (msg : WsMsg)
    (c : Conn) (hnd : (clients.map Conn.ident).Nodup) (hc : c ∈ clients) :
    (broadcast clients msg).count (c.ident, msg) =
      (if c.readyState = 1 then 1 else 0) ∧
    (broadcast clients msg).length =
      (clients.filter (fun x => x.readyState = 1)).length :=
  ⟨broadcast_count_mem msg c clients hnd hc, broadcast_length clients msg⟩

/-- C8 (amended): the connection handler pushes the current
`PositionState` exactly when the stored latitude is non-null (in
particular after any fix carrying a latitude was ingested), and pushes
the mark collection exactly when it is non-empty; an empty collection is
not sent. -/
theorem onConnection_conditional_snapshot (rs : RoverState)
    (marks : List Mark) :
    (WsMsg.position rs ∈ onConnection rs marks ↔ rs.latitude ≠ none) ∧
    (WsMsg.marks marks ∈ onConnection rs marks ↔ marks ≠ []) := by
  constructor
  · cases hl : rs.latitude <;> by_cases hm : 0 < marks.length <;>
      simp [onConnection, hl, hm]
  · cases marks with
    | nil => cases hl : rs.latitude <;> simp [onConnection, hl]
    | cons a l => cases hl : rs.latitude <;> simp [onConnection, hl]

/-- C8 counterexample: after ingesting the scenario fix (so a fix has
been ingested and the stored latitude is non-null), a new connection
with an empty mark collection receives only the position message — no
marks message of any kind is pushed, although the claim demands the mark
collection be sent whatever its size. -/
theorem onConnection_empty_marks_counterexample :
    onConnection c8state [] = [WsMsg.position c8state] ∧
    ∀ ms : List Mark, WsMsg.marks ms ∉ onConnection c8state [] := by
  have hl : c8state.latitude = some 45 := by
    simp [c8state, positionIngest, c4fix]
  have h : onConnection c8state [] = [WsMsg.position c8state] := by
    simp [onConnection, hl]
  refine ⟨h, ?_⟩
  intro ms hmem
  rw [h] at hmem
  simp at hmem

/-- Creation with `h_acc` present and equal to `0`: the stored mark has
null `h_acc`. -/
lemma createMark_hacc_zero (req : MarkReq) (now : String) (ca : ℤ)
    (s : RegState) (lat lon : ℚ) (hlat : req.latitude = some lat)
    (hlon : req.longitude = some lon) (hacc : req.h_acc = some 0) :
    ∃ m : Mark, createMark req now ca s =
      (Except.ok m,
        { marks := s.marks ++ [m], markCounter := s.markCounter + 1 }) ∧
      m.h_acc = none := by
  unfold createMark
  rw [hlat, hlon, hacc]
  refine ⟨_, rfl, ?_⟩
  simp

/-- C10: a create request whose `h_acc` is exactly `0` produces a mark
whose stored (returned and broadcast) `h_acc` is null — zero horizontal
accuracy is coerced to unknown by `h_acc || null`. -/
theorem markCreate_hacc_zero_null (s : RegState) (req : MarkReq)
    (now : String) (ca : ℤ) (lat lon : ℚ)
    (hlat : req.latitude = some lat) (hlon : req.longitude = some lon)
    (hacc : req.h_acc = some 0) :
    ∃ m : Mark, (createMark req now ca s).1 = Except.ok m ∧
      m.h_acc = none ∧
      (createMark req now ca s).2.marks = s.marks ++ [m] := by
  obtain ⟨m, hcm, hm⟩ := createMark_hacc_zero req now ca s lat lon hlat hlon hacc
  exact ⟨m, by rw [hcm], hm, by rw [hcm]⟩

/-- Witness for C10 at a concrete request with `h_acc = 0`. -/
theorem markCreate_hacc_zero_null_witness :
    reqZeroAcc.latitude = some 45 ∧ reqZeroAcc.longitude = some (-122) ∧
    reqZeroAcc.h_acc = some 0 ∧
    (∃ m : Mark, (createMark reqZeroAcc wNow 0 initReg).1 = Except.ok m ∧
      m.h_acc = none ∧
      (createMark reqZeroAcc wNow 0 initReg).2.marks =
        initReg.marks ++ [m]) :=
  ⟨rfl, rfl, rfl,
    markCreate_hacc_zero_null initReg reqZeroAcc wNow 0 45 (-122)
      rfl rfl rfl⟩

/-- A concrete mark event used by the fan-out witness. -/
def demoMsg : WsMsg := WsMsg.mark ("clear") none

/-- Witness for C7 at three concrete connections, one of them not
open. -/
theorem broadcast_fanout_exact_witness :
    (demoClients.map Conn.ident).Nodup ∧
    (⟨2, 0⟩ : Conn) ∈ demoClients ∧
    ((broadcast demoClients demoMsg).count
        ((⟨2, 0⟩ : Conn).ident, demoMsg) =
      (if (⟨2, 0⟩ : Conn).readyState = 1 then 1 else 0) ∧
     (broadcast demoClients demoMsg).length =
      (demoClients.filter (fun x => x.readyState = 1)).length) :=
  ⟨by decide, by decide,
    broadcast_fanout_exact demoClients demoMsg ⟨2, 0⟩ (by decide)
      (by decide)⟩

/-! ## Claim theorems: geometry engine -/

/-- C2 (amended): the local-to-world transform is the identity at the
antenna's own local coordinates `(22, 30)` — for every antenna position
and heading it returns `[lon, lat]` unchanged there.  The local origin
`(0, 0)` is the stern-port hull corner, not the antenna, so the claim's
identity fails at `(0, 0)`. -/
theorem localToWorld_identity_at_antenna (lat lon heading : ℝ) :
    localToWorld antennaLocalX antennaLocalY lat lon heading = (lon, lat) := by
  simp [localToWorld, feetToMeters, sub_self]

/-- C2 counterexample: at antenna position `(0, 0)` with heading `0`, the
transform applied to the local point `(0, 0)` does not return
`[lon, lat] = (0, 0)`: the stern-port corner sits about 11 m away from
the antenna. -/
theorem localToWorld_origin_counterexample :
    localToWorld 0 0 0 0 0 ≠ ((0 : ℝ), (0 : ℝ)) := by
  intro h
  have h2 := congrArg Prod.snd h
  simp only [localToWorld, feetToMeters, antennaLocalX, antennaLocalY,
    zero_mul, zero_div, Real.sin_zero, Real.cos_zero, mul_zero, mul_one,
    add_zero, zero_add, neg_zero] at h2
  rcases mul_eq_zero.mp h2 with h3 | h3
  · norm_num at h3
  · have hπ := Real.pi_pos
    rw [div_eq_zero_iff] at h3
    rcases h3 with h3 | h3 <;> norm_num at h3
    exact absurd h3 (ne_of_gt hπ)

/-! ## Claim theorems: trail recorder -/

lemma pushTrails_lengths (st : DashState) (lat lon : ℝ) :
    (pushTrails st lat lon).trails.piloting.length =
      st.trails.piloting.length + 1 ∧
    (pushTrails st lat lon).trails.suction.length =
      st.trails.suction.length + 1 ∧
    (pushTrails st lat lon).trails.tailings.length =
      st.trails.tailings.length + 1 := by
  simp [pushTrails]

lemma recordTrailPoint_allOrNone (st : DashState) (pp : Option (ℝ × ℝ)) :
    (recordTrailPoint st pp).trails = st.trails ∨
    ((recordTrailPoint st pp).trails.piloting.length =
        st.trails.piloting.length + 1 ∧
      (recordTrailPoint st pp).trails.suction.length =
        st.trails.suction.length + 1 ∧
      (recordTrailPoint st pp).trails.tailings.length =
        st.trails.tailings.length + 1) := by
  unfold recordTrailPoint
  split
  · exact Or.inl rfl
  · split
    · split
      · exact Or.inl rfl
      · exact Or.inr (pushTrails_lengths st _ _)
    · exact Or.inr (pushTrails_lengths st _ _)

lemma ite_state_trails (st : DashState) (lat lon : ℝ) :
    ((if st.locationMode = LocationMode.live then
        { st with currentPosition := some (lat, lon) }
      else st) : DashState).trails = st.trails := by
  split <;> rfl

lemma updateDashboard_step (st : DashState) (data : DashFix)
    (lat lon : ℝ) (hlat : data.latitude = some lat)
    (hlon : data.longitude = some lon) :
    updateDashboard st data =
      (if data.carr_soln = some 2 ∧ st.locationMode = LocationMode.live then
        recordTrailPoint
          (if st.locationMode = LocationMode.live then
            { st with currentPosition := some (lat, lon) }
          else st) st.currentPosition
      else
        (if st.locationMode = LocationMode.live then
          { st with currentPosition := some (lat, lon) }
        else st)) := by
  unfold updateDashboard
  rw [hlat, hlon]

lemma updateDashboard_skip (st : DashState) (data : DashFix)
    (h : data.latitude = none ∨ data.longitude = none) :
    updateDashboard st data = st := by
  rcases h with h | h
  · unfold updateDashboard; rw [h]
  · cases hlat : data.latitude with
    | none => unfold updateDashboard; rw [hlat]
    | some lat => unfold updateDashboard; rw [hlat, h]

lemma updateDashboard_allOrNone (st : DashState) (data : DashFix) :
    (updateDashboard st data).trails = st.trails ∨
    ((updateDashboard st data).trails.piloting.length =
        st.trails.piloting.length + 1 ∧
      (updateDashboard st data).trails.suction.length =
        st.trails.suction.length + 1 ∧
      (updateDashboard st data).trails.tailings.length =
        st.trails.tailings.length + 1) := by
  cases hlat : data.latitude with
  | none => rw [updateDashboard_skip st data (Or.inl hlat)]; exact Or.inl rfl
  | some lat =>
    cases hlon : data.longitude with
    | none => rw [updateDashboard_skip st data (Or.inr hlon)]; exact Or.inl rfl
    | some lon =>
      rw [updateDashboard_step st data lat lon hlat hlon]
      by_cases hc : data.carr_soln = some 2 ∧
          st.locationMode = LocationMode.live
      · rw [if_pos hc]
        rcases recordTrailPoint_allOrNone
          (if st.locationMode = LocationMode.live then
            { st with currentPosition := some (lat, lon) }
          else st) st.currentPosition with h | ⟨h1, h2, h3⟩
        · exact Or.inl (by rw [h, ite_state_trails])
        · rw [ite_state_trails] at h1 h2 h3
          exact Or.inr ⟨h1, h2, h3⟩
      · rw [if_neg hc]
        exact Or.inl (ite_state_trails st lat lon)

/-- C9: the three trail sequences advance atomically — every position
update either appends exactly one element to each of the piloting,
suction and tailings sequences or appends to none of them; `clearTrails`
empties all three; consequently equal lengths are preserved by every
operation. -/
theorem trails_atomic (st : DashState) (data : DashFix) :
    ((updateDashboard st data).trails = st.trails ∨
      ((updateDashboard st data).trails.piloting.length =
          st.trails.piloting.length + 1 ∧
        (updateDashboard st data).trails.suction.length =
          st.trails.suction.length + 1 ∧
        (updateDashboard st data).trails.tailings.length =
          st.trails.tailings.length + 1)) ∧
    ((clearTrails st).trails.piloting = [] ∧
      (clearTrails st).trails.suction = [] ∧
      (clearTrails st).trails.tailings = []) ∧
    (st.trails.piloting.length = st.trails.suction.length →
      st.trails.suction.length = st.trails.tailings.length →
      ((updateDashboard st data).trails.piloting.length =
          (updateDashboard st data).trails.suction.length ∧
        (updateDashboard st data).trails.suction.length =
          (updateDashboard st data).trails.tailings.length ∧
        (clearTrails st).trails.piloting.length =
          (clearTrails st).trails.suction.length ∧
        (clearTrails st).trails.suction.length =
          (clearTrails st).trails.tailings.length)) := by
  refine ⟨updateDashboard_allOrNone st data, ⟨rfl, rfl, rfl⟩, ?_⟩
  intro h1 h2
  rcases updateDashboard_allOrNone st data with h | ⟨a, b, c⟩
  · rw [h]
    exact ⟨h1, h2, rfl, rfl⟩
  · rw [a, b, c]
    exact ⟨by omega, by omega, rfl, rfl⟩

/-- A position message with both coordinates absent. -/
def noFix : DashFix := { latitude := none, longitude := none, carr_soln := none }

/-- Witness for C9 at the constructor state and an empty fix. -/
theorem trails_atomic_witness :
    initDash.trails.piloting.length = initDash.trails.suction.length ∧
    initDash.trails.suction.length = initDash.trails.tailings.length ∧
    ((updateDashboard initDash noFix).trails.piloting.length =
        (updateDashboard initDash noFix).trails.suction.length ∧
      (updateDashboard initDash noFix).trails.suction.length =
        (updateDashboard initDash noFix).trails.tailings.length ∧
      (clearTrails initDash).trails.piloting.length =
        (clearTrails initDash).trails.suction.length ∧
      (clearTrails initDash).trails.suction.length =
        (clearTrails initDash).trails.tailings.length) :=
  ⟨rfl, rfl, (trails_atomic initDash noFix).2.2 rfl rfl⟩

/-! ## Haversine on the equator

For two points on the equator the haversine formula evaluates exactly to
arc length: `R · |Δlon|·π/180`, provided the half-angle stays below
`π/2`. -/

lemma haversine_equator (l1 l2 : ℝ) (h : |l2 - l1| ≤ 1) :
    haversineDistance 0 l1 0 l2 =
      6371000 * (|l2 - l1| * Real.pi / 180) := by
  have hπ := Real.pi_pos
  have habs : |(l2 - l1) * Real.pi / 180 / 2| = |l2 - l1| * Real.pi / 360 := by
    rw [abs_div, abs_div, abs_mul, abs_of_pos hπ,
      abs_of_pos (by norm_num : (0 : ℝ) < 180),
      abs_of_pos (by norm_num : (0 : ℝ) < 2)]
    ring
  set s := (l2 - l1) * Real.pi / 180 / 2 with hs
  have hlt : |s| < Real.pi / 2 := by
    rw [habs]
    have h1 : |l2 - l1| * Real.pi ≤ 1 * Real.pi :=
      mul_le_mul_of_nonneg_right h (le_of_lt hπ)
    nlinarith
  have habs_lt := abs_lt.mp hlt
  have hcos : 0 < Real.cos s :=
    Real.cos_pos_of_mem_Ioo ⟨habs_lt.1, habs_lt.2⟩
  have hsin_abs : |Real.sin s| = Real.sin |s| := by
    rcases le_or_lt 0 s with hs0 | hs0
    · rw [abs_of_nonneg hs0,
        abs_of_nonneg (Real.sin_nonneg_of_nonneg_of_le_pi hs0
          (by linarith [habs_lt.2]))]
    · have hsle : Real.sin s ≤ 0 :=
        Real.sin_nonpos_of_nonnpos_of_neg_pi_le (le_of_lt hs0)
          (by linarith [habs_lt.1])
      rw [abs_of_nonpos hsle, abs_of_neg hs0, Real.sin_neg]
  have e1 : Real.sqrt (Real.sin s * Real.sin s) = |Real.sin s| := by
    rw [show Real.sin s * Real.sin s = Real.sin s ^ 2 by ring,
      Real.sqrt_sq_eq_abs]
  have e2 : (1 : ℝ) - Real.sin s * Real.sin s = Real.cos s * Real.cos s := by
    have := Real.sin_sq_add_cos_sq s
    nlinarith [this]
  have e3 : Real.sqrt (Real.cos s * Real.cos s) = Real.cos s := by
    rw [show Real.cos s * Real.cos s = Real.cos s ^ 2 by ring,
      Real.sqrt_sq (le_of_lt hcos)]
  have hz : ((0 : ℝ) - 0) * Real.pi / 180 / 2 = 0 := by ring
  have hz2 : (0 : ℝ) * Real.pi / 180 = 0 := by ring
  have ha : Real.sin (((0 : ℝ) - 0) * Real.pi / 180 / 2) *
        Real.sin (((0 : ℝ) - 0) * Real.pi / 180 / 2) +
        Real.cos (0 * Real.pi / 180) * Real.cos (0 * Real.pi / 180) *
        Real.sin ((l2 - l1) * Real.pi / 180 / 2) *
        Real.sin ((l2 - l1) * Real.pi / 180 / 2) =
      Real.sin s * Real.sin s := by
    rw [hz, hz2, Real.sin_zero, Real.cos_zero, hs]
    ring
  have key : haversineDistance 0 l1 0 l2 = 6371000 * 2 * |s| := by
    simp only [haversineDistance]
    rw [ha, e2, e1, e3]
    simp only [atan2]
    rw [if_pos hcos, hsin_abs, ← Real.cos_abs s,
      ← Real.tan_eq_sin_div_cos,
      Real.arctan_tan (by linarith [abs_nonneg s]) hlt]
  rw [key, habs]
  ring

/-- `haversineDistance 0 0 0 3e-6` is below the 0.5 m threshold. -/
lemma dist_small_pos :
    haversineDistance 0 0 0 (3 / 1000000) < minTrailDistance := by
  rw [haversine_equator 0 (3 / 1000000)
    (by rw [abs_le]; constructor <;> norm_num)]
  rw [show |(3 / 1000000 : ℝ) - 0| = 3 / 1000000 by
    rw [sub_zero, abs_of_pos] ; norm_num]
  unfold minTrailDistance
  nlinarith [Real.pi_lt_d2, Real.pi_pos]

/-- `haversineDistance 0 0 0 (-3e-6)` is below the 0.5 m threshold. -/
lemma dist_small_neg :
    haversineDistance 0 0 0 (-(3 / 1000000)) < minTrailDistance := by
  rw [haversine_equator 0 (-(3 / 1000000))
    (by rw [abs_le]; constructor <;> norm_num)]
  rw [show |(-(3 / 1000000) : ℝ) - 0| = 3 / 1000000 by
    rw [sub_zero, abs_neg, abs_of_pos] ; norm_num]
  unfold minTrailDistance
  nlinarith [Real.pi_lt_d2, Real.pi_pos]

/-- The distance between longitudes `3e-6` and `-3e-6` on the equator is
at least the 0.5 m threshold. -/
lemma dist_big :
    ¬ haversineDistance 0 (3 / 1000000) 0 (-(3 / 1000000)) <
      minTrailDistance := by
  rw [not_lt,
    haversine_equator (3 / 1000000) (-(3 / 1000000))
      (by rw [abs_le]; constructor <;> norm_num)]
  rw [show |(-(3 / 1000000) : ℝ) - 3 / 1000000| = 6 / 1000000 by
    rw [show (-(3 / 1000000) : ℝ) - 3 / 1000000 = -(6 / 1000000) by ring,
      abs_neg, abs_of_pos] ; norm_num]
  unfold minTrailDistance
  nlinarith [Real.pi_gt_three]

/-! ## Stepping lemmas for the live-mode position pipeline -/

lemma updateDashboard_live_eq (st : DashState) (data : DashFix)
    (lat lon : ℝ) (hlat : data.latitude = some lat)
    (hlon : data.longitude = some lon) (hcarr : data.carr_soln = some 2)
    (hmode : st.locationMode = LocationMode.live) :
    updateDashboard st data =
      recordTrailPoint { st with currentPosition := some (lat, lon) }
        st.currentPosition := by
  rw [updateDashboard_step st data lat lon hlat hlon,
    if_pos ⟨hcarr, hmode⟩, if_pos hmode]

lemma recordTrailPoint_first (st : DashState) (cur : ℝ × ℝ)
    (hcur : st.currentPosition = some cur) :
    recordTrailPoint st none = pushTrails st cur.1 cur.2 := by
  unfold recordTrailPoint
  rw [hcur]

lemma recordTrailPoint_far (st : DashState) (cur pp : ℝ × ℝ)
    (hcur : st.currentPosition = some cur)
    (hfar : ¬ haversineDistance pp.1 pp.2 cur.1 cur.2 < minTrailDistance) :
    recordTrailPoint st (some pp) = pushTrails st cur.1 cur.2 := by
  unfold recordTrailPoint
  rw [hcur]
  exact if_neg hfar

lemma recordTrailPoint_nearby (st : DashState) (cur pp : ℝ × ℝ)
    (hcur : st.currentPosition = some cur)
    (hnear : haversineDistance pp.1 pp.2 cur.1 cur.2 < minTrailDistance) :
    recordTrailPoint st (some pp) = st := by
  unfold recordTrailPoint
  rw [hcur]
  exact if_pos hnear

lemma recordTrailPoint_currentPosition (st : DashState)
    (pp : Option (ℝ × ℝ)) :
    (recordTrailPoint st pp).currentPosition = st.currentPosition := by
  unfold recordTrailPoint
  split
  · rfl
  · split
    · split
      · rfl
      · rfl
    · rfl

/-- C1 (amended): the decimation reference is the previous fix's
position (`currentPosition`), which every live fix overwrites whether or
not the sample is admitted — not the last admitted piloting point.  A
live RTK-fixed fix with both coordinates present is admitted exactly
when there is no previous position, or the haversine distance from the
previous fix's position is at least `minTrailDistance`; a nearby
candidate (below the threshold from the previous fix) is discarded, yet
still becomes the next reference point. -/
theorem trail_decimation_prev_fix (st : DashState) (data : DashFix)
    (lat lon : ℝ) (hlat : data.latitude = some lat)
    (hlon : data.longitude = some lon) (hcarr : data.carr_soln = some 2)
    (hmode : st.locationMode = LocationMode.live) :
    (updateDashboard st data).currentPosition = some (lat, lon) ∧
    (st.currentPosition = none →
      (updateDashboard st data).trails.piloting =
        st.trails.piloting ++ [(lon, lat)]) ∧
    (∀ pp : ℝ × ℝ, st.currentPosition = some pp →
      (minTrailDistance ≤ haversineDistance pp.1 pp.2 lat lon →
        (updateDashboard st data).trails.piloting =
          st.trails.piloting ++ [(lon, lat)]) ∧
      (haversineDistance pp.1 pp.2 lat lon < minTrailDistance →
        (updateDashboard st data).trails.piloting =
          st.trails.piloting)) := by
  rw [updateDashboard_live_eq st data lat lon hlat hlon hcarr hmode]
  refine ⟨?_, ?_, ?_⟩
  · rw [recordTrailPoint_currentPosition]
  · intro hnone
    rw [hnone, recordTrailPoint_first _ (lat, lon) rfl]
    rfl
  · intro pp hpp
    rw [hpp]
    constructor
    · intro hfar
      rw [recordTrailPoint_far _ (lat, lon) pp rfl (not_lt.mpr hfar)]
      rfl
    · intro hnear
      rw [recordTrailPoint_nearby _ (lat, lon) pp rfl hnear]

/-- A live RTK-fixed fix at the equator origin. -/
noncomputable def liveFix0 : DashFix :=
  { latitude := some 0, longitude := some 0, carr_soln := some 2 }

/-- A live RTK-fixed fix 3·10⁻⁶ degrees of longitude east of the
origin (≈ 0.33 m away). -/
noncomputable def fixP1 : DashFix :=
  { latitude := some 0, longitude := some (3 / 1000000), carr_soln := some 2 }

/-- A live RTK-fixed fix 3·10⁻⁶ degrees of longitude west of the
origin (≈ 0.33 m from the origin, ≈ 0.67 m from `fixP1`). -/
noncomputable def fixP2 : DashFix :=
  { latitude := some 0, longitude := some (-(3 / 1000000))
    carr_soln := some 2 }

/-- Witness for the amended C1 at the constructor state and the origin
fix. -/
theorem trail_decimation_prev_fix_witness :
    liveFix0.latitude = some 0 ∧ liveFix0.longitude = some 0 ∧
    liveFix0.carr_soln = some 2 ∧
    initDash.locationMode = LocationMode.live ∧
    ((updateDashboard initDash liveFix0).currentPosition =
        some ((0 : ℝ), (0 : ℝ)) ∧
      (initDash.currentPosition = none →
        (updateDashboard initDash liveFix0).trails.piloting =
          initDash.trails.piloting ++ [((0 : ℝ), (0 : ℝ))]) ∧
      (∀ pp : ℝ × ℝ, initDash.currentPosition = some pp →
        (minTrailDistance ≤ haversineDistance pp.1 pp.2 0 0 →
          (updateDashboard initDash liveFix0).trails.piloting =
            initDash.trails.piloting ++ [((0 : ℝ), (0 : ℝ))]) ∧
        (haversineDistance pp.1 pp.2 0 0 < minTrailDistance →
          (updateDashboard initDash liveFix0).trails.piloting =
            initDash.trails.piloting))) :=
  ⟨rfl, rfl, rfl, rfl,
    trail_decimation_prev_fix initDash liveFix0 0 0 rfl rfl rfl rfl⟩

/-- State after the first counterexample fix. -/
noncomputable def cex0 : DashState := updateDashboard initDash liveFix0

/-- State after the second counterexample fix. -/
noncomputable def cex1 : DashState := updateDashboard cex0 fixP1

/-- State after the third counterexample fix. -/
noncomputable def cex2 : DashState := updateDashboard cex1 fixP2

/-- C1 counterexample: a concrete sequence of three live RTK-fixed fixes
in which every candidate lies strictly within `minTrailDistance` of the
only admitted piloting point `(0,0)` (both later fixes are ≈ 0.33 m from
it), yet the piloting sequence reaches length 2: the second fix is
discarded but still resets the reference to itself, so the third fix —
0.67 m from the second but only 0.33 m from the last admitted point —
is admitted.  This refutes both the claimed reference point ("last
admitted piloting point") and the claimed bound ("length never grows
beyond 1"). -/
theorem trail_decimation_counterexample :
    haversineDistance 0 0 0 (3 / 1000000) < minTrailDistance ∧
    haversineDistance 0 0 0 (-(3 / 1000000)) < minTrailDistance ∧
    (runUpdates initDash [liveFix0, fixP1, fixP2]).trails.piloting.length
      = 2 := by
  refine ⟨dist_small_pos, dist_small_neg, ?_⟩
  have h0 : cex0 =
      pushTrails { initDash with currentPosition := some (0, 0) } 0 0 := by
    unfold cex0
    rw [updateDashboard_live_eq initDash liveFix0 0 0 rfl rfl rfl rfl]
    exact recordTrailPoint_first _ (0, 0) rfl
  have hm : cex0.locationMode = LocationMode.live := by rw [h0]; rfl
  have hc : cex0.currentPosition = some ((0 : ℝ), (0 : ℝ)) := by
    rw [h0]; rfl
  have hp : cex0.trails.piloting.length = 1 := by rw [h0]; rfl
  have h1 : cex1 =
      { cex0 with currentPosition := some ((0 : ℝ), 3 / 1000000) } := by
    unfold cex1
    rw [updateDashboard_live_eq cex0 fixP1 0 (3 / 1000000) rfl rfl rfl hm,
      hc]
    exact recordTrailPoint_nearby _ (0, 3 / 1000000) (0, 0) rfl
      dist_small_pos
  have hm1 : cex1.locationMode = LocationMode.live := by rw [h1]; exact hm
  have hc1 : cex1.currentPosition = some ((0 : ℝ), 3 / 1000000) := by
    rw [h1]
  have hp1 : cex1.trails = cex0.trails := by rw [h1]
  have h2 : cex2 =
      pushTrails
        { cex1 with currentPosition := some ((0 : ℝ), -(3 / 1000000)) }
        0 (-(3 / 1000000)) := by
    unfold cex2
    rw [updateDashboard_live_eq cex1 fixP2 0 (-(3 / 1000000)) rfl rfl rfl
      hm1, hc1]
    exact recordTrailPoint_far _ (0, -(3 / 1000000)) (0, 3 / 1000000) rfl
      dist_big
  have hrun : runUpdates initDash [liveFix0, fixP1, fixP2] = cex2 := rfl
  rw [hrun, h2, (pushTrails_lengths _ 0 (-(3 / 1000000))).1]
  have hcc : ({ cex1 with
      currentPosition := some ((0 : ℝ), -(3 / 1000000)) } :
        DashState).trails = cex1.trails := rfl
  rw [hcc, hp1, hp]

end Rover
